import Mathlib

/-!
Verification of the Chandler Water System BLE protocol engine
(`custom_components/chandler_system/client.py` and `const.py`).

The embedding models inbound frames as lists of byte values (`List Nat`),
the parsed JSON telemetry objects as association lists from short string
keys to integers, the mutable client state (connection state, assembly
buffer, device-data snapshot) as an explicit record threaded through each
step, and the observable side effects of one step (writes to the link,
buffer mutations, decoder hand-off, data callback) as an ordered event
trace.
-/

namespace Chandler

/-! ## Protocol constants (client.py lines 22-30) -/

def AUTH_REQUEST : Nat := 0xEA

def ACK : Nat := 0xCC

def KEEP_ALIVE_MARCO : Nat := 0xE0

def KEEP_ALIVE_POLO : Nat := 0xF0

def HEADER_FIRST_PACKET : Nat := 0x80

def HEADER_LAST_PACKET : Nat := 0x40

/-! ## Connection state (client.py `ConnectionState`) -/

inductive ConnectionState where
  | DISCONNECTED
  | CONNECTING
  | AUTHENTICATING
  | CONNECTED
deriving DecidableEq, Repr

/-! ## Parsed JSON telemetry objects

The device sends flat JSON objects whose values are integers (counts,
scaled fixed-point quantities, 0/1 flags).  An object is modelled as an
association list; `hasKey` mirrors Python's `"k" in json_data` and `get`
mirrors `json_data["k"]` (only ever used under a `hasKey` guard). -/

def JsonObj : Type := List (String × Int)

def JsonObj.hasKey (j : JsonObj) (k : String) : Bool :=
  (List.lookup k j).isSome

def JsonObj.get (j : JsonObj) (k : String) : Int :=
  (List.lookup k j).getD 0

/-- Python's `bool(v)` on an integer value. -/
def pyBool (v : Int) : Bool := v != 0

/-! ## DeviceData (client.py lines 42-104)

Every parsed field is optional and starts out unset.  Fields assigned
raw JSON integers are `Option Int`; fields assigned `bool(...)` are
`Option Bool`.  `raw_data` is the raw pass-through mapping
(`dict[str, Any]`), modelled as a partial map from keys to values. -/

structure DeviceData where
  time_hours : Option Int := none                    -- dh
  time_minutes : Option Int := none                  -- dm
  battery_level_mv : Option Int := none              -- dbl
  total_gallons_remaining : Option Int := none       -- dtgr
  peak_flow_daily : Option Int := none               -- dpfd
  water_hardness : Option Int := none                -- dwh
  day_override : Option Int := none                  -- ddo
  current_day_override : Option Int := none          -- dcdo
  water_used_today : Option Int := none              -- dwu
  average_water_used : Option Int := none            -- dwau
  regen_time_hours : Option Int := none              -- drth
  regen_time_type : Option Int := none               -- drtt
  regen_time_remaining : Option Int := none          -- drtr
  regen_current_position : Option Int := none        -- drcp
  regen_in_aeration : Option Bool := none            -- dria
  regen_soak_mode : Option Bool := none              -- dps
  regen_soak_timer : Option Int := none              -- drst
  prefill_enabled : Option Bool := none              -- dpe
  prefill_duration : Option Int := none              -- dpd
  brine_tank_total_salt : Option Int := none         -- dbts
  brine_tank_remaining_salt : Option Int := none     -- dbtr
  brine_tank_width : Option Int := none              -- dbtw
  brine_tank_height : Option Int := none             -- dbth
  brine_tank_reserve_time : Option Int := none       -- dbrt
  days_until_regen : Option Int := none              -- asd
  regen_day_override : Option Int := none            -- asr
  auto_reserve_mode : Option Bool := none            -- asar
  reserve_capacity : Option Int := none              -- asrc
  reserve_capacity_gallons : Option Int := none      -- asrg
  total_grains_capacity : Option Int := none         -- astg
  aeration_days : Option Int := none                 -- asad
  chlorine_pulses : Option Int := none               -- ascp
  display_off : Option Bool := none                  -- asdo
  num_regen_positions : Option Int := none           -- asnp
  days_in_operation : Option Int := none             -- shdo
  days_since_last_regen : Option Int := none         -- shdr
  gallons_since_last_regen : Option Int := none      -- shgs
  regen_counter : Option Int := none                 -- shrc
  regen_counter_resettable : Option Int := none      -- shrr
  total_gallons : Option Int := none                 -- shgt
  total_gallons_resettable : Option Int := none      -- shgr
  valve_status : Option Int := none                  -- gvs
  valve_error : Option Int := none                   -- gve
  present_flow : Option Int := none                  -- gpf
  regen_active : Option Bool := none                 -- gra
  regen_state : Option Int := none                   -- grs
  auth_state : Option Int := none                    -- as
  raw_data : String → Option Int := fun _ => none

/-! ## Derived read-only properties (client.py lines 106-145)

Python float arithmetic on these small scaled integers is exact, so the
derived values are modelled over `ℚ`. -/

/-- Property `DeviceData.salt_level_percent` (client.py lines 127-134):
`min(100.0, (remaining / 10.0 / total) * 100.0)` when
`remaining is not None and total` (Python truthiness: `total` is not
`None` and not zero), else `None`. -/
def DeviceData.salt_level_percent (d : DeviceData) : Option ℚ :=
  match d.brine_tank_remaining_salt, d.brine_tank_total_salt with
  | some remaining, some total =>
      if total ≠ 0 then
        some (min 100 ((remaining : ℚ) / 10 / (total : ℚ) * 100))
      else none
  | _, _ => none

/-- Property `DeviceData.capacity_remaining_percent` (client.py lines
136-145): guarded by `remaining is not None and capacity` (truthiness),
then `total = capacity * 1000` and `if total > 0`, returning
`min(100.0, (remaining / 100.0) / total * 100.0)`. -/
def DeviceData.capacity_remaining_percent (d : DeviceData) : Option ℚ :=
  match d.total_gallons_remaining, d.total_grains_capacity with
  | some remaining, some capacity =>
      if capacity ≠ 0 then
        let total : Int := capacity * 1000
        if total > 0 then
          some (min 100 ((remaining : ℚ) / 100 / (total : ℚ) * 100))
        else none
      else none
  | _, _ => none

/-! ## Sensor-layer value transforms (const.py lines 100-117) -/

/-- Function `_hundredths` from const.py: `value / 100.0` unless `None`. -/
def _hundredths (value : Option Int) : Option ℚ :=
  match value with
  | some v => some ((v : ℚ) / 100)
  | none => none

/-- Function `_tenths` from const.py: `value / 10.0` unless `None`. -/
def _tenths (value : Option Int) : Option ℚ :=
  match value with
  | some v => some ((v : ℚ) / 10)
  | none => none

/-- Function `_thousands` from const.py: `value * 1000` unless `None`. -/
def _thousands (value : Option Int) : Option Int :=
  match value with
  | some v => some (v * 1000)
  | none => none

/-! ## Field mapper (client.py `_map_json_to_data`, lines 297-401)

The Python method is a sequence of independent guarded assignments, one
per key, each writing a distinct field; it never touches `raw_data`.
That sequence is written here as one structure literal with one
conditional per field. -/

def mapJsonToData (j : JsonObj) (d : DeviceData) : DeviceData where
  time_hours := if j.hasKey "dh" then some (j.get "dh") else d.time_hours
  time_minutes := if j.hasKey "dm" then some (j.get "dm") else d.time_minutes
  battery_level_mv := if j.hasKey "dbl" then some (j.get "dbl") else d.battery_level_mv
  total_gallons_remaining := if j.hasKey "dtgr" then some (j.get "dtgr") else d.total_gallons_remaining
  peak_flow_daily := if j.hasKey "dpfd" then some (j.get "dpfd") else d.peak_flow_daily
  water_hardness := if j.hasKey "dwh" then some (j.get "dwh") else d.water_hardness
  day_override := if j.hasKey "ddo" then some (j.get "ddo") else d.day_override
  current_day_override := if j.hasKey "dcdo" then some (j.get "dcdo") else d.current_day_override
  water_used_today := if j.hasKey "dwu" then some (j.get "dwu") else d.water_used_today
  average_water_used := if j.hasKey "dwau" then some (j.get "dwau") else d.average_water_used
  regen_time_hours := if j.hasKey "drth" then some (j.get "drth") else d.regen_time_hours
  regen_time_type := if j.hasKey "drtt" then some (j.get "drtt") else d.regen_time_type
  regen_time_remaining := if j.hasKey "drtr" then some (j.get "drtr") else d.regen_time_remaining
  regen_current_position := if j.hasKey "drcp" then some (j.get "drcp") else d.regen_current_position
  regen_in_aeration := if j.hasKey "dria" then some (pyBool (j.get "dria")) else d.regen_in_aeration
  regen_soak_mode := if j.hasKey "dps" then some (pyBool (j.get "dps")) else d.regen_soak_mode
  regen_soak_timer := if j.hasKey "drst" then some (j.get "drst") else d.regen_soak_timer
  prefill_enabled := if j.hasKey "dpe" then some (pyBool (j.get "dpe")) else d.prefill_enabled
  prefill_duration := if j.hasKey "dpd" then some (j.get "dpd") else d.prefill_duration
  brine_tank_total_salt := if j.hasKey "dbts" then some (j.get "dbts") else d.brine_tank_total_salt
  brine_tank_remaining_salt := if j.hasKey "dbtr" then some (j.get "dbtr") else d.brine_tank_remaining_salt
  brine_tank_width := if j.hasKey "dbtw" then some (j.get "dbtw") else d.brine_tank_width
  brine_tank_height := if j.hasKey "dbth" then some (j.get "dbth") else d.brine_tank_height
  brine_tank_reserve_time := if j.hasKey "dbrt" then some (j.get "dbrt") else d.brine_tank_reserve_time
  days_until_regen := if j.hasKey "asd" then some (j.get "asd") else d.days_until_regen
  regen_day_override := if j.hasKey "asr" then some (j.get "asr") else d.regen_day_override
  auto_reserve_mode := if j.hasKey "asar" then some (pyBool (j.get "asar")) else d.auto_reserve_mode
  reserve_capacity := if j.hasKey "asrc" then some (j.get "asrc") else d.reserve_capacity
  reserve_capacity_gallons := if j.hasKey "asrg" then some (j.get "asrg") else d.reserve_capacity_gallons
  total_grains_capacity := if j.hasKey "astg" then some (j.get "astg") else d.total_grains_capacity
  aeration_days := if j.hasKey "asad" then some (j.get "asad") else d.aeration_days
  chlorine_pulses := if j.hasKey "ascp" then some (j.get "ascp") else d.chlorine_pulses
  display_off := if j.hasKey "asdo" then some (pyBool (j.get "asdo")) else d.display_off
  num_regen_positions := if j.hasKey "asnp" then some (j.get "asnp") else d.num_regen_positions
  days_in_operation := if j.hasKey "shdo" then some (j.get "shdo") else d.days_in_operation
  days_since_last_regen := if j.hasKey "shdr" then some (j.get "shdr") else d.days_since_last_regen
  gallons_since_last_regen := if j.hasKey "shgs" then some (j.get "shgs") else d.gallons_since_last_regen
  regen_counter := if j.hasKey "shrc" then some (j.get "shrc") else d.regen_counter
  regen_counter_resettable := if j.hasKey "shrr" then some (j.get "shrr") else d.regen_counter_resettable
  total_gallons := if j.hasKey "shgt" then some (j.get "shgt") else d.total_gallons
  total_gallons_resettable := if j.hasKey "shgr" then some (j.get "shgr") else d.total_gallons_resettable
  valve_status := if j.hasKey "gvs" then some (j.get "gvs") else d.valve_status
  valve_error := if j.hasKey "gve" then some (j.get "gve") else d.valve_error
  present_flow := if j.hasKey "gpf" then some (j.get "gpf") else d.present_flow
  regen_active := if j.hasKey "gra" then some (pyBool (j.get "gra")) else d.regen_active
  regen_state := if j.hasKey "grs" then some (j.get "grs") else d.regen_state
  auth_state := if j.hasKey "as" then some (j.get "as") else d.auth_state
  raw_data := d.raw_data

/-- Python `dict.update`: keys present in `j` are overwritten, the rest
are kept. -/
def updateRaw (f : String → Option Int) (j : JsonObj) : String → Option Int :=
  fun k => match List.lookup k j with
    | some v => some v
    | none => f k

/-- Success path of `ChandlerClient._parse_json_data` (lines 284-292):
merge the parsed object into the raw pass-through mapping, then map the
recognized keys onto the named fields. -/
def decodeMessage (j : JsonObj) (d : DeviceData) : DeviceData :=
  mapJsonToData j { d with raw_data := updateRaw d.raw_data j }

/-! ## Client state and observable events -/

structure ClientState where
  state : ConnectionState
  data_buffer : List Nat
  data : DeviceData

/-- Observable side effects of processing one inbound frame, in program
order: a packet write to the link, a mutation of the assembly buffer,
the hand-off of a completed message's bytes to the JSON decoder, and the
invocation of the data callback. -/
inductive Event where
  | write (packet : List Nat)
  | bufferExtend (payload : List Nat)
  | bufferClear
  | decode (message : List Nat)
  | callback
deriving DecidableEq, Repr

/-- Method `ChandlerClient._parse_json_data` (lines 277-295): try to
decode the accumulated buffer as UTF-8 JSON; on success merge and invoke
the callback, on failure (`JSONDecodeError` / `UnicodeDecodeError`) log
and leave everything untouched.  The UTF-8/JSON parser is Python library
code, abstracted as the `dec` parameter: `none` models a parse failure. -/
def parseJsonData (dec : List Nat → Option JsonObj) (buf : List Nat)
    (d : DeviceData) : DeviceData × List Event :=
  match dec buf with
  | some j => (decodeMessage j d, [Event.decode buf, Event.callback])
  | none => (d, [Event.decode buf])

/-- Method `ChandlerClient._process_packet` (lines 252-275).  Note the
source's keep-alive branch (`len(data) == 1`) is unreachable: the
`len(data) < 3` guard above it already returned; it is kept here as
written. -/
def processPacket (dec : List Nat → Option JsonObj) (data : List Nat)
    (s : ClientState) : ClientState × List Event :=
  if data.length < 3 then (s, [])
  else
    let header := data.headD 0
    if data.length == 1 then
      if header == KEEP_ALIVE_MARCO then (s, [Event.write [KEEP_ALIVE_POLO]])
      else (s, [])
    else
      let payload := data.tail.take (data.length - 3)
      let buf := s.data_buffer ++ payload
      let is_last := header &&& HEADER_LAST_PACKET != 0
      if is_last then
        let r := parseJsonData dec buf s.data
        ({ s with data_buffer := [], data := r.1 },
         Event.bufferExtend payload :: r.2 ++ [Event.bufferClear])
      else
        ({ s with data_buffer := buf }, [Event.bufferExtend payload])

/-- One iteration of `ChandlerClient._monitor_loop` (lines 406-427) for a
dequeued frame `data`.  The second length-1 check (the ACK case) is dead
code in the source — the first length-1 branch always `continue`s — and
is kept here as written. -/
def monitorStep (dec : List Nat → Option JsonObj) (data : List Nat)
    (s : ClientState) : ClientState × List Event :=
  if data.length == 1 then
    if data.headD 0 == KEEP_ALIVE_MARCO then (s, [Event.write [KEEP_ALIVE_POLO]])
    else (s, [])
  else if data.length == 1 && data.headD 0 == ACK then
    (s, [])
  else
    let r := processPacket dec data s
    (r.1, Event.write [ACK] :: r.2)

/-- One iteration of the `ChandlerClient._authenticate` wait loop (lines
234-247) for a received frame: a single-byte ACK completes the handshake
(write the 16-byte token, become CONNECTED); anything else is answered
with an ACK byte and fed to `_process_packet`.  The returned flag is
true when the handshake completed. -/
def authStep (dec : List Nat → Option JsonObj) (token : List Nat)
    (data : List Nat) (s : ClientState) : ClientState × List Event × Bool :=
  if data.length == 1 && data.headD 0 == ACK then
    ({ s with state := ConnectionState.CONNECTED }, [Event.write token], true)
  else
    let r := processPacket dec data s
    (r.1, Event.write [ACK] :: r.2, false)

/-- Process a sequence of inbound frames through the steady-state
monitor loop, in arrival order, accumulating the event trace. -/
def processSeq (dec : List Nat → Option JsonObj) (frames : List (List Nat))
    (s : ClientState) : ClientState × List Event :=
  match frames with
  | [] => (s, [])
  | f :: rest =>
    let r1 := monitorStep dec f s
    let r2 := processSeq dec rest r1.1
    (r2.1, r1.2 ++ r2.2)

/-! ## Trace observers -/

/-- Payload of a data fragment: `data[1:-2]` for a frame of length ≥ 3. -/
def payloadOf (f : List Nat) : List Nat := f.tail.take (f.length - 3)

/-- Messages handed to the JSON decoder in a trace. -/
def decodedMsgs (evs : List Event) : List (List Nat) :=
  evs.filterMap fun e => match e with
    | Event.decode m => some m
    | _ => none

def isAckWrite (e : Event) : Bool :=
  match e with
  | Event.write p => p == [ACK]
  | _ => false

def isWrite (e : Event) : Bool :=
  match e with
  | Event.write _ => true
  | _ => false

def mutatesBuffer (e : Event) : Bool :=
  match e with
  | Event.bufferExtend _ => true
  | Event.bufferClear => true
  | _ => false

def isCallback (e : Event) : Bool :=
  match e with
  | Event.callback => true
  | _ => false

/-! ## Trace-observer simp lemmas -/

@[simp]
theorem decodedMsgs_nil : decodedMsgs [] = [] := rfl

@[simp]
theorem decodedMsgs_write (p : List Nat) (l : List Event) :
    decodedMsgs (Event.write p :: l) = decodedMsgs l := rfl

@[simp]
theorem decodedMsgs_bufferExtend (p : List Nat) (l : List Event) :
    decodedMsgs (Event.bufferExtend p :: l) = decodedMsgs l := rfl

@[simp]
theorem decodedMsgs_bufferClear (l : List Event) :
    decodedMsgs (Event.bufferClear :: l) = decodedMsgs l := rfl

@[simp]
theorem decodedMsgs_decode (m : List Nat) (l : List Event) :
    decodedMsgs (Event.decode m :: l) = m :: decodedMsgs l := rfl

@[simp]
theorem decodedMsgs_callback (l : List Event) :
    decodedMsgs (Event.callback :: l) = decodedMsgs l := rfl

@[simp]
theorem decodedMsgs_append (a b : List Event) :
    decodedMsgs (a ++ b) = decodedMsgs a ++ decodedMsgs b :=
  List.filterMap_append a b _

/-! ## Step lemmas -/

/-- Monitor-loop behaviour on a non-final data fragment: ACK then append
the payload. -/
theorem monitorStep_nonfinal (dec : List Nat → Option JsonObj)
    (f : List Nat) (s : ClientState) (h3 : 3 ≤ f.length)
    (hbit : f.headD 0 &&& HEADER_LAST_PACKET = 0) :
    monitorStep dec f s =
      ({ s with data_buffer := s.data_buffer ++ payloadOf f },
       [Event.write [ACK], Event.bufferExtend (payloadOf f)]) := by
  have hne1 : ¬ f.length = 1 := by omega
  have hge : ¬ f.length < 3 := by omega
  have hbit' : f.head?.getD 0 &&& HEADER_LAST_PACKET = 0 := by
    cases f with
    | nil => simp at h3
    | cons a t => exact hbit
  simp [monitorStep, processPacket, hne1, hge, hbit', payloadOf]

/-- Monitor-loop behaviour on a final data fragment: the buffer is
cleared and the decoder receives the accumulated buffer plus this
fragment's payload, whatever the decode outcome. -/
theorem monitorStep_final (dec : List Nat → Option JsonObj)
    (f : List Nat) (s : ClientState) (h3 : 3 ≤ f.length)
    (hbit : f.headD 0 &&& HEADER_LAST_PACKET ≠ 0) :
    (monitorStep dec f s).1.data_buffer = [] ∧
    decodedMsgs (monitorStep dec f s).2 = [s.data_buffer ++ payloadOf f] := by
  have hne1 : ¬ f.length = 1 := by omega
  have hge : ¬ f.length < 3 := by omega
  have hbit' : ¬ (f.head?.getD 0 &&& HEADER_LAST_PACKET = 0) := by
    cases f with
    | nil => simp at h3
    | cons a t => exact hbit
  cases hdec : dec (s.data_buffer ++ payloadOf f) <;>
    simp [monitorStep, processPacket, parseJsonData, hne1, hge, hbit',
      payloadOf] at hdec ⊢ <;>
    simp [hdec]

/-- Processing a concatenation of frame sequences threads the state and
concatenates the traces. -/
theorem processSeq_append (dec : List Nat → Option JsonObj)
    (a b : List (List Nat)) (s : ClientState) :
    processSeq dec (a ++ b) s =
      ((processSeq dec b (processSeq dec a s).1).1,
       (processSeq dec a s).2 ++ (processSeq dec b (processSeq dec a s).1).2) := by
  induction a generalizing s with
  | nil => simp [processSeq]
  | cons f rest ih => simp [processSeq, ih]

/-- Processing a run of non-final fragments appends their payloads to
the assembly buffer in order and hands nothing to the decoder. -/
theorem processSeq_nonfinal (dec : List Nat → Option JsonObj)
    (fs : List (List Nat)) (s : ClientState)
    (h : ∀ f ∈ fs, 3 ≤ f.length ∧ f.headD 0 &&& HEADER_LAST_PACKET = 0) :
    (processSeq dec fs s).1 =
      { s with data_buffer := s.data_buffer ++ (fs.map payloadOf).flatten } ∧
    decodedMsgs (processSeq dec fs s).2 = [] := by
  induction fs generalizing s with
  | nil => simp [processSeq]
  | cons f rest ih =>
    obtain ⟨h3, hbit⟩ := h f (List.mem_cons_self f rest)
    have hrest : ∀ g ∈ rest, 3 ≤ g.length ∧ g.headD 0 &&& HEADER_LAST_PACKET = 0 :=
      fun g hg => h g (List.mem_cons_of_mem f hg)
    have hstep := monitorStep_nonfinal dec f s h3 hbit
    have hih := ih { s with data_buffer := s.data_buffer ++ payloadOf f } hrest
    simp [processSeq, hstep, hih.1, hih.2, List.append_assoc]

/-- Monitor-loop behaviour on a frame shorter than three bytes: the
client state is unchanged. -/
theorem monitorStep_short_state (dec : List Nat → Option JsonObj)
    (data : List Nat) (s : ClientState) (hlt : data.length < 3) :
    (monitorStep dec data s).1 = s := by
  unfold monitorStep processPacket
  split
  · split <;> rfl
  · split
    · rfl
    · rfl

/-- The trace of `_process_packet` never contains an ACK write: the only
write it can emit is the keep-alive pong (in a branch that is in fact
dead code). -/
theorem processPacket_no_ackWrite (dec : List Nat → Option JsonObj)
    (data : List Nat) (s : ClientState) :
    (processPacket dec data s).2.countP (fun e => isAckWrite e) = 0 := by
  by_cases hlt : data.length < 3
  · simp [processPacket, hlt]
  · by_cases h1 : data.length = 1
    · omega
    · by_cases hbit : data.head?.getD 0 &&& HEADER_LAST_PACKET = 0
      · simp [processPacket, hlt, h1, hbit, isAckWrite]
      · cases hdec : dec (s.data_buffer ++ data.tail.take (data.length - 3)) <;>
          simp [processPacket, parseJsonData, hlt, h1, hbit, hdec,
            isAckWrite, ACK]

/-! ## Claims -/

/-- C1: for every sequence of data fragments (each of length at least 3)
in which the last-fragment header bit 0x40 is set on exactly the final
fragment, processed in arrival order by the steady-state loop starting
from an empty assembly buffer, the telemetry decoder receives exactly
one message: the byte-concatenation, in arrival order, of each
fragment's payload, a fragment's payload being its bytes with the
leading header byte and the trailing two bytes removed. -/
theorem fragment_reassembly_delivers_concatenation
    (dec : List Nat → Option JsonObj) (d : DeviceData)
    (fs : List (List Nat)) (fl : List Nat)
    (hlen : ∀ f ∈ fs ++ [fl], 3 ≤ f.length)
    (hmid : ∀ f ∈ fs, f.headD 0 &&& HEADER_LAST_PACKET = 0)
    (hfin : fl.headD 0 &&& HEADER_LAST_PACKET ≠ 0) :
    decodedMsgs (processSeq dec (fs ++ [fl])
        ⟨ConnectionState.CONNECTED, [], d⟩).2
      = [((fs ++ [fl]).map payloadOf).flatten] := by
  have hfs : ∀ f ∈ fs, 3 ≤ f.length ∧ f.headD 0 &&& HEADER_LAST_PACKET = 0 :=
    fun f hf => ⟨hlen f (List.mem_append_left _ hf), hmid f hf⟩
  have hlenfl : 3 ≤ fl.length :=
    hlen fl (List.mem_append_right _ (List.mem_singleton.mpr rfl))
  have h1 := processSeq_nonfinal dec fs ⟨ConnectionState.CONNECTED, [], d⟩ hfs
  have hfinal := monitorStep_final dec fl
    (processSeq dec fs ⟨ConnectionState.CONNECTED, [], d⟩).1 hlenfl hfin
  rw [h1.1] at hfinal
  simp only [List.nil_append] at hfinal
  rw [processSeq_append]
  simp [processSeq, h1.2, hfinal.2, h1.1]

/-- Witness for C1: a two-fragment message is delivered to the decoder
as the concatenation of the two stripped payloads. -/
theorem fragment_reassembly_delivers_concatenation_witness :
    decodedMsgs (processSeq (fun _ => none)
        [[0x80, 1, 2, 9, 9], [0x40, 3, 4, 9, 9]]
        ⟨ConnectionState.CONNECTED, [], {}⟩).2 = [[1, 2, 3, 4]] := by
  have h := fragment_reassembly_delivers_concatenation (fun _ => none) {}
    [[0x80, 1, 2, 9, 9]] [0x40, 3, 4, 9, 9]
    (by decide) (by decide) (by decide)
  simpa [payloadOf] using h

/-- C2: every data fragment (length at least 3) processed by the
steady-state loop yields a trace whose first event is the ACK write and
which contains no other ACK write; since the unique ACK write is the
head of the trace, it precedes every assembly-buffer mutation of that
frame. -/
theorem dataFragment_single_ack_before_mutation
    (dec : List Nat → Option JsonObj) (data : List Nat) (s : ClientState)
    (h3 : 3 ≤ data.length) :
    (monitorStep dec data s).2.head? = some (Event.write [ACK]) ∧
    (monitorStep dec data s).2.countP (fun e => isAckWrite e) = 1 := by
  have hne1 : ¬ data.length = 1 := by omega
  have hstep : (monitorStep dec data s).2
      = Event.write [ACK] :: (processPacket dec data s).2 := by
    simp [monitorStep, hne1]
  rw [hstep]
  refine ⟨rfl, ?_⟩
  rw [List.countP_cons_of_pos _ _ (by decide),
    processPacket_no_ackWrite dec data s]

/-- Witness for C2 on a concrete single-fragment frame. -/
theorem dataFragment_single_ack_before_mutation_witness :
    (monitorStep (fun _ => none) [0x40, 7, 9, 9]
        ⟨ConnectionState.CONNECTED, [], {}⟩).2.head?
      = some (Event.write [ACK]) ∧
    (monitorStep (fun _ => none) [0x40, 7, 9, 9]
        ⟨ConnectionState.CONNECTED, [], {}⟩).2.countP
        (fun e => isAckWrite e) = 1 :=
  dataFragment_single_ack_before_mutation (fun _ => none) [0x40, 7, 9, 9]
    ⟨ConnectionState.CONNECTED, [], {}⟩ (by decide)

/-- C3 counterexample: a frame of length 2 received in the steady-state
loop is not dropped silently — the loop writes the unconditional ACK
byte before `_process_packet` discards the frame, so the write trace is
non-empty, contradicting the claim that nothing is written. -/
theorem short_frame_silent_drop_counterexample :
    (monitorStep (fun _ => none) [0x80, 0x00]
        ⟨ConnectionState.CONNECTED, [], {}⟩).2 = [Event.write [ACK]] ∧
    [Event.write [ACK]] ≠ ([] : List Event) :=
  ⟨rfl, by decide⟩

/-- C3 amended: a too-short frame in the steady-state loop mutates
neither the assembly buffer nor the snapshot and gets no reply beyond
flow control — but a frame of length 0 or 2 does trigger exactly one ACK
write (the loop ACKs every frame of length other than 1 before
classifying it), while a length-1 frame that is not the keep-alive probe
is dropped with no write at all. -/
theorem short_frame_acked_and_dropped
    (dec : List Nat → Option JsonObj) (data : List Nat) (s : ClientState)
    (hlt : data.length < 3) :
    (data.length ≠ 1 →
      monitorStep dec data s = (s, [Event.write [ACK]])) ∧
    (data.length = 1 → data.headD 0 ≠ KEEP_ALIVE_MARCO →
      monitorStep dec data s = (s, [])) := by
  constructor
  · intro h1
    simp [monitorStep, processPacket, h1, hlt]
  · intro h1 hk
    cases data with
    | nil => simp at h1
    | cons a t =>
      cases t with
      | cons b t2 => simp at h1
      | nil =>
        simp only [List.headD] at hk
        simp [monitorStep, hk]

/-- Witness for C3 amended: a length-2 frame is ACKed and dropped with
the state unchanged; a length-1 junk byte is dropped with no write. -/
theorem short_frame_acked_and_dropped_witness :
    monitorStep (fun _ => none) [0x80, 0x00]
        ⟨ConnectionState.AUTHENTICATING, [5], {}⟩
      = (⟨ConnectionState.AUTHENTICATING, [5], {}⟩, [Event.write [ACK]]) ∧
    monitorStep (fun _ => none) [0x55]
        ⟨ConnectionState.AUTHENTICATING, [5], {}⟩
      = (⟨ConnectionState.AUTHENTICATING, [5], {}⟩, []) :=
  ⟨(short_frame_acked_and_dropped (fun _ => none) [0x80, 0x00]
      ⟨ConnectionState.AUTHENTICATING, [5], {}⟩ (by decide)).1 (by decide),
   (short_frame_acked_and_dropped (fun _ => none) [0x55]
      ⟨ConnectionState.AUTHENTICATING, [5], {}⟩ (by decide)).2 rfl (by decide)⟩

/-- C7: when the accumulated message completed by a final data fragment
fails to decode (the UTF-8/JSON parser, modelled by `dec`, returns
`none`), the failure is absorbed: the snapshot including its raw
pass-through mapping is left entirely unchanged, the data callback is
not invoked, and the connection state is untouched, so a CONNECTED
session stays CONNECTED. -/
theorem decode_failure_non_fatal
    (dec : List Nat → Option JsonObj) (data : List Nat) (s : ClientState)
    (h3 : 3 ≤ data.length)
    (hbit : data.headD 0 &&& HEADER_LAST_PACKET ≠ 0)
    (hfail : dec (s.data_buffer ++ payloadOf data) = none) :
    (monitorStep dec data s).1.data = s.data ∧
    (monitorStep dec data s).1.state = s.state ∧
    (monitorStep dec data s).2.countP (fun e => isCallback e) = 0 := by
  have hne1 : ¬ data.length = 1 := by omega
  have hge : ¬ data.length < 3 := by omega
  have hbit' : ¬ (data.head?.getD 0 &&& HEADER_LAST_PACKET = 0) := by
    cases data with
    | nil => simp at h3
    | cons a t => exact hbit
  simp only [payloadOf] at hfail
  simp [monitorStep, processPacket, parseJsonData, hne1, hge, hbit',
    hfail, isCallback]

/-- Witness for C7: a final fragment whose message fails to parse leaves
the snapshot, the connection state and the callback count unchanged. -/
theorem decode_failure_non_fatal_witness :
    (monitorStep (fun _ => none) [0x40, 0xFF, 9, 9]
        ⟨ConnectionState.CONNECTED, [], {}⟩).1.data = ({} : DeviceData) ∧
    (monitorStep (fun _ => none) [0x40, 0xFF, 9, 9]
        ⟨ConnectionState.CONNECTED, [], {}⟩).1.state
      = ConnectionState.CONNECTED ∧
    (monitorStep (fun _ => none) [0x40, 0xFF, 9, 9]
        ⟨ConnectionState.CONNECTED, [], {}⟩).2.countP
        (fun e => isCallback e) = 0 :=
  decode_failure_non_fatal (fun _ => none) [0x40, 0xFF, 9, 9]
    ⟨ConnectionState.CONNECTED, [], {}⟩ (by decide) (by decide) rfl

/-- C8: the assembly buffer is empty immediately after the steady-state
loop processes any data fragment with the last-fragment bit set, whether
or not the accumulated message decodes; and the buffer is non-empty
after a step only if a message is in flight — the frame just processed
was a non-final data fragment, or the buffer was already non-empty
before the step. -/
theorem assembly_buffer_empty_after_final
    (dec : List Nat → Option JsonObj) (data : List Nat) (s : ClientState) :
    (3 ≤ data.length → data.headD 0 &&& HEADER_LAST_PACKET ≠ 0 →
      (monitorStep dec data s).1.data_buffer = []) ∧
    ((monitorStep dec data s).1.data_buffer ≠ [] →
      s.data_buffer ≠ [] ∨
        (3 ≤ data.length ∧ data.headD 0 &&& HEADER_LAST_PACKET = 0)) := by
  constructor
  · intro h3 hbit
    exact (monitorStep_final dec data s h3 hbit).1
  · intro hne
    by_cases hlt : data.length < 3
    · left
      rw [monitorStep_short_state dec data s hlt] at hne
      exact hne
    · have h3 : 3 ≤ data.length := by omega
      by_cases hbit : data.headD 0 &&& HEADER_LAST_PACKET = 0
      · exact Or.inr ⟨h3, hbit⟩
      · exact absurd (monitorStep_final dec data s h3 hbit).1 hne

/-- Witness for C8: a final fragment empties a non-empty buffer even
though its message fails to decode. -/
theorem assembly_buffer_empty_after_final_witness :
    (monitorStep (fun _ => none) [0x40, 1, 2, 9, 9]
        ⟨ConnectionState.CONNECTED, [7, 7], {}⟩).1.data_buffer = [] :=
  (assembly_buffer_empty_after_final (fun _ => none) [0x40, 1, 2, 9, 9]
    ⟨ConnectionState.CONNECTED, [7, 7], {}⟩).1 (by decide) (by decide)

/-- C4 (code behaviour at the failing input): a one-byte keep-alive
frame (0xE0) arriving while the engine is authenticating is answered
with an ACK byte (0xCC), not the keep-alive reply byte (0xF0) — the
`else` branch of `_authenticate` treats every non-ACK frame as an
initial data packet, and the keep-alive branch inside `_process_packet`
is unreachable dead code because the `len(data) < 3` guard returns
first.  Handshake state and buffer are indeed unaffected. -/
theorem keepalive_during_auth_gets_ack_not_pong :
    authStep (fun _ => none) (List.replicate 16 0xAB) [KEEP_ALIVE_MARCO]
        ⟨ConnectionState.AUTHENTICATING, [], {}⟩
      = (⟨ConnectionState.AUTHENTICATING, [], {}⟩,
         [Event.write [ACK]], false) ∧
    [Event.write [ACK]] ≠ [Event.write [KEEP_ALIVE_POLO]] :=
  ⟨rfl, by decide⟩

/-- C5 counterexample: decoding a message whose JSON object carries
dtgr = 500 stores the raw value 500 in the snapshot field
`total_gallons_remaining`; the stored field value is 500, not 5 — no
divide-by-100 happens in the decoder. -/
theorem dtgr_snapshot_field_not_scaled_counterexample :
    (decodeMessage [("dtgr", 500)] {}).total_gallons_remaining = some 500 ∧
    ((500 : Int) : ℚ) ≠ 5 :=
  ⟨by decide, by norm_num⟩

/-- C5 amended: the decoder stores the raw dtgr integer v unchanged in
the snapshot field `total_gallons_remaining`; the divide-by-100
transform is applied at the sensor layer (const.py `_hundredths`, the
value function of the Treated Water Remaining sensor), so the exposed
value for dtgr = v equals v / 100 — in particular 5.0 for v = 500. -/
theorem dtgr_exposed_value_scaled_by_hundredths (v : Int) (d : DeviceData) :
    (decodeMessage [("dtgr", v)] d).total_gallons_remaining = some v ∧
    _hundredths (decodeMessage [("dtgr", v)] d).total_gallons_remaining
      = some ((v : ℚ) / 100) := by
  have h : (decodeMessage [("dtgr", v)] d).total_gallons_remaining
      = some v := by
    simp [decodeMessage, mapJsonToData, JsonObj.hasKey, JsonObj.get]
  refine ⟨h, ?_⟩
  rw [h]
  rfl

/-- C6: snapshot updates are merges: decoding the empty object leaves
the whole snapshot (raw mapping included) unchanged; a key absent from
the decoded object leaves its snapshot field — and its raw-mapping
entry — untouched (stated per field below); and decoding an object with
dbl = 12000 followed by one with dtgr = 500 leaves both fields set. -/
theorem snapshot_update_is_merge (j : JsonObj) (d : DeviceData) :
    decodeMessage [] d = d ∧
    ((j.hasKey "dh" = false → (decodeMessage j d).time_hours = d.time_hours) ∧
     (j.hasKey "dm" = false → (decodeMessage j d).time_minutes = d.time_minutes) ∧
     (j.hasKey "dbl" = false → (decodeMessage j d).battery_level_mv = d.battery_level_mv) ∧
     (j.hasKey "dtgr" = false → (decodeMessage j d).total_gallons_remaining = d.total_gallons_remaining) ∧
     (j.hasKey "dpfd" = false → (decodeMessage j d).peak_flow_daily = d.peak_flow_daily) ∧
     (j.hasKey "dwh" = false → (decodeMessage j d).water_hardness = d.water_hardness) ∧
     (j.hasKey "ddo" = false → (decodeMessage j d).day_override = d.day_override) ∧
     (j.hasKey "dcdo" = false → (decodeMessage j d).current_day_override = d.current_day_override) ∧
     (j.hasKey "dwu" = false → (decodeMessage j d).water_used_today = d.water_used_today) ∧
     (j.hasKey "dwau" = false → (decodeMessage j d).average_water_used = d.average_water_used) ∧
     (j.hasKey "drth" = false → (decodeMessage j d).regen_time_hours = d.regen_time_hours) ∧
     (j.hasKey "drtt" = false → (decodeMessage j d).regen_time_type = d.regen_time_type) ∧
     (j.hasKey "drtr" = false → (decodeMessage j d).regen_time_remaining = d.regen_time_remaining) ∧
     (j.hasKey "drcp" = false → (decodeMessage j d).regen_current_position = d.regen_current_position) ∧
     (j.hasKey "dria" = false → (decodeMessage j d).regen_in_aeration = d.regen_in_aeration) ∧
     (j.hasKey "dps" = false → (decodeMessage j d).regen_soak_mode = d.regen_soak_mode) ∧
     (j.hasKey "drst" = false → (decodeMessage j d).regen_soak_timer = d.regen_soak_timer) ∧
     (j.hasKey "dpe" = false → (decodeMessage j d).prefill_enabled = d.prefill_enabled) ∧
     (j.hasKey "dpd" = false → (decodeMessage j d).prefill_duration = d.prefill_duration) ∧
     (j.hasKey "dbts" = false → (decodeMessage j d).brine_tank_total_salt = d.brine_tank_total_salt) ∧
     (j.hasKey "dbtr" = false → (decodeMessage j d).brine_tank_remaining_salt = d.brine_tank_remaining_salt) ∧
     (j.hasKey "dbtw" = false → (decodeMessage j d).brine_tank_width = d.brine_tank_width) ∧
     (j.hasKey "dbth" = false → (decodeMessage j d).brine_tank_height = d.brine_tank_height) ∧
     (j.hasKey "dbrt" = false → (decodeMessage j d).brine_tank_reserve_time = d.brine_tank_reserve_time) ∧
     (j.hasKey "asd" = false → (decodeMessage j d).days_until_regen = d.days_until_regen) ∧
     (j.hasKey "asr" = false → (decodeMessage j d).regen_day_override = d.regen_day_override) ∧
     (j.hasKey "asar" = false → (decodeMessage j d).auto_reserve_mode = d.auto_reserve_mode) ∧
     (j.hasKey "asrc" = false → (decodeMessage j d).reserve_capacity = d.reserve_capacity) ∧
     (j.hasKey "asrg" = false → (decodeMessage j d).reserve_capacity_gallons = d.reserve_capacity_gallons) ∧
     (j.hasKey "astg" = false → (decodeMessage j d).total_grains_capacity = d.total_grains_capacity) ∧
     (j.hasKey "asad" = false → (decodeMessage j d).aeration_days = d.aeration_days) ∧
     (j.hasKey "ascp" = false → (decodeMessage j d).chlorine_pulses = d.chlorine_pulses) ∧
     (j.hasKey "asdo" = false → (decodeMessage j d).display_off = d.display_off) ∧
     (j.hasKey "asnp" = false → (decodeMessage j d).num_regen_positions = d.num_regen_positions) ∧
     (j.hasKey "shdo" = false → (decodeMessage j d).days_in_operation = d.days_in_operation) ∧
     (j.hasKey "shdr" = false → (decodeMessage j d).days_since_last_regen = d.days_since_last_regen) ∧
     (j.hasKey "shgs" = false → (decodeMessage j d).gallons_since_last_regen = d.gallons_since_last_regen) ∧
     (j.hasKey "shrc" = false → (decodeMessage j d).regen_counter = d.regen_counter) ∧
     (j.hasKey "shrr" = false → (decodeMessage j d).regen_counter_resettable = d.regen_counter_resettable) ∧
     (j.hasKey "shgt" = false → (decodeMessage j d).total_gallons = d.total_gallons) ∧
     (j.hasKey "shgr" = false → (decodeMessage j d).total_gallons_resettable = d.total_gallons_resettable) ∧
     (j.hasKey "gvs" = false → (decodeMessage j d).valve_status = d.valve_status) ∧
     (j.hasKey "gve" = false → (decodeMessage j d).valve_error = d.valve_error) ∧
     (j.hasKey "gpf" = false → (decodeMessage j d).present_flow = d.present_flow) ∧
     (j.hasKey "gra" = false → (decodeMessage j d).regen_active = d.regen_active) ∧
     (j.hasKey "grs" = false → (decodeMessage j d).regen_state = d.regen_state) ∧
     (j.hasKey "as" = false → (decodeMessage j d).auth_state = d.auth_state) ∧
     (∀ k, List.lookup k j = none →
       (decodeMessage j d).raw_data k = d.raw_data k)) ∧
    ((decodeMessage [("dtgr", 500)]
        (decodeMessage [("dbl", 12000)] d)).battery_level_mv = some 12000 ∧
     (decodeMessage [("dtgr", 500)]
        (decodeMessage [("dbl", 12000)] d)).total_gallons_remaining = some 500) := by
  refine ⟨rfl, ?_, ?_⟩
  · repeat' constructor
    all_goals
      first
        | (intro k hk
           simp [decodeMessage, mapJsonToData, updateRaw, hk])
        | (intro h
           simp [decodeMessage, mapJsonToData, updateRaw, h])
  · constructor <;>
      simp [decodeMessage, mapJsonToData, JsonObj.hasKey, JsonObj.get]

/-- Witness for C6: with concrete inputs, a key absent from the decoded
object leaves its field untouched and the two-message example leaves the
first message's field set. -/
theorem snapshot_update_is_merge_witness :
    (decodeMessage [("dbl", 12000)] ({} : DeviceData)).time_hours
      = ({} : DeviceData).time_hours ∧
    (decodeMessage [("dtgr", 500)]
        (decodeMessage [("dbl", 12000)] ({} : DeviceData))).battery_level_mv
      = some 12000 :=
  ⟨(snapshot_update_is_merge [("dbl", 12000)] {}).2.1.1 (by decide),
   (snapshot_update_is_merge [] {}).2.2.1⟩

/-- C9 counterexample: with a negative remaining-salt amount the salt
percentage comes out negative — `min(100.0, ...)` clamps only the upper
bound, so the claim that values are clamped to [0, 100] at both bounds
for every combination of stored values is false. -/
theorem percent_not_clamped_below_counterexample :
    DeviceData.salt_level_percent
        { brine_tank_remaining_salt := some (-100),
          brine_tank_total_salt := some 10 } = some (-100) ∧
    ¬ ((0 : ℚ) ≤ -100) := by
  constructor
  · simp only [DeviceData.salt_level_percent]
    norm_num
  · norm_num

/-- C9 amended: whenever a derived percentage is defined it is at most
100 (the `min` clamps the upper bound), and it is additionally at least
0 — hence in [0, 100] — whenever the stored remaining amount is
nonnegative and the stored total is positive; a negative remaining
amount can drive the value below 0, which is not clamped. -/
theorem percent_clamped_above_only (d : DeviceData) :
    (∀ q : ℚ, d.salt_level_percent = some q → q ≤ 100) ∧
    (∀ q : ℚ, d.capacity_remaining_percent = some q → q ≤ 100) ∧
    (∀ (q : ℚ) (r t : Int), d.brine_tank_remaining_salt = some r →
      d.brine_tank_total_salt = some t → 0 ≤ r → 0 < t →
      d.salt_level_percent = some q → 0 ≤ q) ∧
    (∀ (q : ℚ) (r t : Int), d.total_gallons_remaining = some r →
      d.total_grains_capacity = some t → 0 ≤ r → 0 < t →
      d.capacity_remaining_percent = some q → 0 ≤ q) := by
  refine ⟨?_, ?_, ?_, ?_⟩
  · intro q hq
    unfold DeviceData.salt_level_percent at hq
    cases hr : d.brine_tank_remaining_salt with
    | none => simp [hr] at hq
    | some r =>
      cases ht : d.brine_tank_total_salt with
      | none => simp [hr, ht] at hq
      | some t =>
        rw [hr, ht] at hq
        by_cases h0 : t = 0
        · simp [h0] at hq
        · simp only [h0, ne_eq, not_false_eq_true, if_true] at hq
          obtain rfl : min 100 ((r : ℚ) / 10 / (t : ℚ) * 100) = q :=
            Option.some.inj hq
          exact min_le_left _ _
  · intro q hq
    unfold DeviceData.capacity_remaining_percent at hq
    cases hr : d.total_gallons_remaining with
    | none => simp [hr] at hq
    | some r =>
      cases ht : d.total_grains_capacity with
      | none => simp [hr, ht] at hq
      | some t =>
        rw [hr, ht] at hq
        by_cases h0 : t = 0
        · simp [h0] at hq
        · simp only [h0, ne_eq, not_false_eq_true, if_true] at hq
          by_cases hpos : t * 1000 > 0
          · simp only [hpos, if_true] at hq
            obtain rfl : min 100 ((r : ℚ) / 100 / ((t * 1000 : Int) : ℚ) * 100) = q :=
              Option.some.inj hq
            exact min_le_left _ _
          · simp [hpos] at hq
  · intro q r t hr ht hr0 ht0 hq
    unfold DeviceData.salt_level_percent at hq
    rw [hr, ht] at hq
    have h0 : t ≠ 0 := by omega
    simp only [h0, ne_eq, not_false_eq_true, if_true] at hq
    obtain rfl : min 100 ((r : ℚ) / 10 / (t : ℚ) * 100) = q :=
      Option.some.inj hq
    have hrq : (0 : ℚ) ≤ (r : ℚ) := by exact_mod_cast hr0
    have htq : (0 : ℚ) < (t : ℚ) := by exact_mod_cast ht0
    refine le_min (by norm_num) ?_
    exact mul_nonneg (div_nonneg (div_nonneg hrq (by norm_num)) htq.le)
      (by norm_num)
  · intro q r t hr ht hr0 ht0 hq
    unfold DeviceData.capacity_remaining_percent at hq
    rw [hr, ht] at hq
    have h0 : t ≠ 0 := by omega
    have hpos : t * 1000 > 0 := by positivity
    simp only [h0, ne_eq, not_false_eq_true, if_true, hpos] at hq
    obtain rfl : min 100 ((r : ℚ) / 100 / ((t * 1000 : Int) : ℚ) * 100) = q :=
      Option.some.inj hq
    have hrq : (0 : ℚ) ≤ (r : ℚ) := by exact_mod_cast hr0
    have htq : (0 : ℚ) < ((t * 1000 : Int) : ℚ) := by exact_mod_cast hpos
    refine le_min (by norm_num) ?_
    exact mul_nonneg (div_nonneg (div_nonneg hrq (by norm_num)) htq.le)
      (by norm_num)

/-- Witness for C9 amended: a snapshot with nonnegative remaining
amounts and positive totals yields in-range percentages. -/
theorem percent_clamped_above_only_witness :
    DeviceData.salt_level_percent
        { brine_tank_remaining_salt := some 50,
          brine_tank_total_salt := some 10 } = some 50 ∧
    (50 : ℚ) ≤ 100 ∧ (0 : ℚ) ≤ 50 := by
  have hcomp : DeviceData.salt_level_percent
      { brine_tank_remaining_salt := some 50,
        brine_tank_total_salt := some 10 } = some 50 := by
    simp only [DeviceData.salt_level_percent]
    norm_num
  exact ⟨hcomp,
    (percent_clamped_above_only _).1 50 hcomp,
    (percent_clamped_above_only _).2.2.1 50 50 10 rfl rfl (by norm_num)
      (by norm_num) hcomp⟩

/-- C10: the derived percentage reads never divide by zero: a missing or
zero total (falsy in the Python truthiness guard), or a missing
remaining amount, makes the property return `none` with no error. -/
theorem derived_percent_zero_guards (d : DeviceData) :
    ((d.brine_tank_total_salt = none ∨ d.brine_tank_total_salt = some 0 ∨
        d.brine_tank_remaining_salt = none) →
      d.salt_level_percent = none) ∧
    ((d.total_grains_capacity = none ∨ d.total_grains_capacity = some 0 ∨
        d.total_gallons_remaining = none) →
      d.capacity_remaining_percent = none) := by
  constructor
  · rintro (h | h | h) <;>
      cases hr : d.brine_tank_remaining_salt <;>
        cases ht : d.brine_tank_total_salt <;>
          simp_all [DeviceData.salt_level_percent]
  · rintro (h | h | h) <;>
      cases hr : d.total_gallons_remaining <;>
        cases ht : d.total_grains_capacity <;>
          simp_all [DeviceData.capacity_remaining_percent]

/-- Witness for C10: a zero total salt amount and a zero grains capacity
both give `none` rather than a division error. -/
theorem derived_percent_zero_guards_witness :
    DeviceData.salt_level_percent
        { brine_tank_total_salt := some 0,
          brine_tank_remaining_salt := some 5 } = none ∧
    DeviceData.capacity_remaining_percent
        { total_grains_capacity := some 0,
          total_gallons_remaining := some 5 } = none :=
  ⟨(derived_percent_zero_guards _).1 (Or.inr (Or.inl rfl)),
   (derived_percent_zero_guards _).2 (Or.inr (Or.inl rfl))⟩

end Chandler
